import Mathlib

/-!
Shallow embedding of the Unity runtime-introspection library
(src/src/dotnet/{mod,il2cpp_2020,mono_v2_x64,mono_v2_x86}.rs).

Modelling conventions:
* Target addresses and unsigned machine integers are `Nat`; signed machine
  integers (`i32`) are `Int`.  Where the source adds a signed displacement to
  an address the result is taken modulo `2 ^ 64` (`addSigned`), mirroring
  two's-complement arithmetic; plain unsigned address additions are wrap-free
  `Nat` additions, per the spec's TypedPointer invariant.
* `usize` is modelled as 64 bits wide; `x as usize` on an `i32` sign-extends
  (`u64ofI`), `i32 as u64` likewise.
* The host process-access layer (`Process.read`, module enumeration, the
  byte-pattern scanner and the PE machine-type decoder) is an external
  capability per the spec; it is modelled as a bundle of oracle functions
  (`Proc`): each typed read returns `Option` of the already-decoded value,
  a failed read being `none`.  Signatures are identified by their literal
  pattern strings.
-/

set_option maxRecDepth 4000

/-- Machine types, per the spec's external interface
`machine_type(module_base) → \x7bx86, x86_64\x7d | Err`. -/
inductive MachineType where
  | x86
  | x86_64
deriving DecidableEq

/-- The eight runtime variants (`MonoVersion` in src/src/dotnet/mod.rs). -/
inductive MonoVersion where
  | MonoV1_x86
  | MonoV1_x64
  | MonoV2_x86
  | MonoV2_x64
  | MonoV3_x64
  | Il2Cpp_base_x64
  | Il2Cpp_2019_x64
  | Il2Cpp_2020_x64
deriving DecidableEq

/-- Truncate a byte window at the first NUL, as every name comparison in the
source does: `&name[..name.iter().position(|&b| b == 0).unwrap_or(name.len())]`. -/
def truncAtNul (bs : List Nat) : List Nat := bs.takeWhile (fun b => b != 0)

/-- Rust's `slice::split` on a separator byte: always yields at least one
(sub)slice, empty segments included. -/
def splitOn (sep : Nat) : List Nat → List (List Nat)
  | [] => [[]]
  | b :: rest =>
    if b = sep then [] :: splitOn sep rest
    else
      match splitOn sep rest with
      | s :: ss => (b :: s) :: ss
      | [] => [[b]]

/-- The digit-accumulating loop of `get_version_no` in mod.rs: ASCII digits
(`b'0'` = 48 … `b'9'` = 57) extend the accumulator, anything else breaks. -/
def get_version_no_go : List Nat → Nat → Nat
  | [], version => version
  | val :: rest, version =>
    if val = 48 then get_version_no_go rest (version * 10)
    else if val = 49 then get_version_no_go rest (version * 10 + 1)
    else if val = 50 then get_version_no_go rest (version * 10 + 2)
    else if val = 51 then get_version_no_go rest (version * 10 + 3)
    else if val = 52 then get_version_no_go rest (version * 10 + 4)
    else if val = 53 then get_version_no_go rest (version * 10 + 5)
    else if val = 54 then get_version_no_go rest (version * 10 + 6)
    else if val = 55 then get_version_no_go rest (version * 10 + 7)
    else if val = 56 then get_version_no_go rest (version * 10 + 8)
    else if val = 57 then get_version_no_go rest (version * 10 + 9)
    else version

/-- `get_version_no` from `detect_version` in mod.rs. -/
def get_version_no (input : List Nat) : Nat := get_version_no_go input 0

/-- Reinterpret an `i32` (or any signed value) as a `u64`/`usize`
(sign-extension followed by the unsigned reading). -/
def u64ofI (x : Int) : Nat := (x.emod (2 ^ 64)).toNat

/-- Add a signed displacement to a 64-bit address (two's-complement wrap). -/
def addSigned (a : Nat) (d : Int) : Nat := (((a : Int) + d).emod (2 ^ 64)).toNat

/-- Read `n` consecutive bytes from a byte-granular memory; used to build
concrete process states whose windowed reads are mutually consistent. -/
def readRangeBytes (m : Nat → Option Nat) : Nat → Nat → Option (List Nat)
  | 0, _ => some []
  | n + 1, a =>
    match m a, readRangeBytes m n (a + 1) with
    | some b, some bs => some (b :: bs)
    | _, _ => none

namespace Il2cpp2020

/-- `MonoAssemblyName` of il2cpp_2020.rs (pointers carried as raw addresses). -/
structure MonoAssemblyName where
  name : Nat := 0
  culture : Nat := 0
  public_key : Nat := 0
  hash_alg : Nat := 0
  hash_len : Int := 0
  flags : Nat := 0
  major : Int := 0
  minor : Int := 0
  build : Int := 0
  revision : Int := 0
  public_key_token : List Nat := []

/-- `MonoAssembly` of il2cpp_2020.rs. -/
structure MonoAssembly where
  image : Nat := 0
  token : Nat := 0
  referenced_assembly_start : Int := 0
  referenced_assembly_count : Int := 0
  aname : MonoAssemblyName := {}

/-- `MonoImage` of il2cpp_2020.rs. -/
structure MonoImage where
  name : Nat := 0
  name_no_ext : Nat := 0
  assembly : Nat := 0
  type_count : Nat := 0
  exported_type_count : Nat := 0
  custom_attribute_count : Nat := 0
  metadata_handle : Nat := 0
  name_to_class_hash_table : Nat := 0
  code_gen_module : Nat := 0
  token : Nat := 0
  dynamic : Nat := 0

/-- `MonoType` of il2cpp_2020.rs. -/
structure MonoType where
  data : Nat := 0
  attrs : Nat := 0

/-- `MonoClass` of il2cpp_2020.rs. -/
structure MonoClass where
  image : Nat := 0
  gc_desc : Nat := 0
  name : Nat := 0
  name_space : Nat := 0
  byval_arg : MonoType := {}
  this_arg : MonoType := {}
  element_class : Nat := 0
  cast_class : Nat := 0
  declaring_type : Nat := 0
  parent : Nat := 0
  generic_class : Nat := 0
  type_metadata_handle : Nat := 0
  interop_data : Nat := 0
  klass : Nat := 0
  fields : Nat := 0
  events : Nat := 0
  properties : Nat := 0
  methods : Nat := 0
  nested_types : Nat := 0
  implemented_interfaces : Nat := 0
  interface_offsets : Nat := 0
  static_fields : Nat := 0
  rgctx_data : Nat := 0
  type_hierarchy : Nat := 0
  unity_user_data : Nat := 0
  initialization_exception_gc_handle : Nat := 0
  cctor_started : Nat := 0
  cctor_finished : Nat := 0
  cctor_thread : Nat := 0
  generic_container_handle : Nat := 0
  instance_size : Nat := 0
  actual_size : Nat := 0
  element_size : Nat := 0
  native_size : Int := 0
  static_fields_size : Nat := 0
  thread_static_fields_size : Nat := 0
  thread_static_fields_offset : Int := 0
  flags : Nat := 0
  token : Nat := 0
  method_count : Nat := 0
  property_count : Nat := 0
  field_count : Nat := 0
  event_count : Nat := 0
  nested_type_count : Nat := 0
  vtable_count : Nat := 0
  interfaces_count : Nat := 0
  interface_offsets_count : Nat := 0
  type_hierarchy_depth : Nat := 0
  generic_recursion_depth : Nat := 0
  rank : Nat := 0
  minimum_alignment : Nat := 0
  natural_aligment : Nat := 0
  packing_size : Nat := 0
  more_flags : List Nat := []

/-- `MonoClassField` of il2cpp_2020.rs
(`\x7b name, type, parent, offset: i32, token \x7d`, `repr(C)` size 32). -/
structure MonoClassField where
  name : Nat := 0
  type : Nat := 0
  parent : Nat := 0
  offset : Int := 0
  token : Nat := 0

/-- The attached IL2CPP 2020 module: the two root pointers resolved by
`MonoModule::attach` (the process reference is passed explicitly). -/
structure MonoModule where
  assemblies : Nat := 0
  type_info_definition_table : Nat := 0

end Il2cpp2020

namespace MonoV2x64

/-- `GList` of mono_v2_x64.rs. -/
structure GList where
  data : Nat := 0
  next : Nat := 0
  prev : Nat := 0

/-- `MonoAssemblyName` of mono_v2_x64.rs. -/
structure MonoAssemblyName where
  name : Nat := 0
  culture : Nat := 0
  hash_value : Nat := 0
  public_key : Nat := 0
  public_key_token : List Nat := []
  hash_alg : Nat := 0
  hash_len : Nat := 0
  flags : Nat := 0
  major : Nat := 0
  minor : Nat := 0
  build : Nat := 0
  revision : Nat := 0
  arch : Nat := 0

/-- `MonoAssembly` of mono_v2_x64.rs. -/
structure MonoAssembly where
  ref_count : Int := 0
  basedir : Nat := 0
  aname : MonoAssemblyName := {}
  image : Nat := 0

/-- `MonoStreamHeader` of mono_v2_x64.rs. -/
structure MonoStreamHeader where
  data : Nat := 0
  size : Nat := 0

/-- `MonoTableInfo` of mono_v2_x64.rs. -/
structure MonoTableInfo where
  base : Nat := 0
  rows_and_size : Nat := 0
  size_bitfield : Nat := 0

/-- `MonoInternalHashTable` of mono_v2_x64.rs (`size`, `num_entries`: i32). -/
structure MonoInternalHashTable where
  hash_func : Nat := 0
  key_extract : Nat := 0
  next_value : Nat := 0
  size : Int := 0
  num_entries : Int := 0
  table : Nat := 0

/-- `MonoImage` of mono_v2_x64.rs (`tables` is `[MonoTableInfo; 56]`). -/
structure MonoImage where
  ref_count : Int := 0
  raw_data_handle : Nat := 0
  raw_data : Nat := 0
  raw_data_len : Nat := 0
  various_flags : List Nat := []
  name : Nat := 0
  assembly_name : Nat := 0
  module_name : Nat := 0
  version : Nat := 0
  md_version_major : Int := 0
  md_version_minor : Int := 0
  guid : Nat := 0
  image_info : Nat := 0
  mempool : Nat := 0
  raw_metadata : Nat := 0
  heap_strings : MonoStreamHeader := {}
  heap_us : MonoStreamHeader := {}
  heap_blob : MonoStreamHeader := {}
  heap_guid : MonoStreamHeader := {}
  heap_tables : MonoStreamHeader := {}
  heap_pdb : MonoStreamHeader := {}
  tables_base : Nat := 0
  referenced_tables : Nat := 0
  referenced_table_rows : Nat := 0
  tables : List MonoTableInfo := []
  references : Nat := 0
  nreferences : Int := 0
  modules : Nat := 0
  module_count : Nat := 0
  modules_loaded : Nat := 0
  files : Nat := 0
  file_count : Nat := 0
  aot_module : Nat := 0
  aotid : List Nat := []
  assembly : Nat := 0
  method_cache : Nat := 0
  class_cache : MonoInternalHashTable := {}

/-- `MonoType` of mono_v2_x64.rs. -/
structure MonoType where
  data : Nat := 0
  attrs : Nat := 0
  type : Nat := 0
  flags : Nat := 0
  modifiers : Nat := 0

/-- `MonoClass` of mono_v2_x64.rs (`vtable_size`: i32). -/
structure MonoClass where
  element_class : Nat := 0
  cast_class : Nat := 0
  supertypes : Nat := 0
  idepth : Nat := 0
  rank : Nat := 0
  instance_size : Int := 0
  flags1 : Nat := 0
  min_align : Nat := 0
  flags2 : Nat := 0
  parent : Nat := 0
  nested_in : Nat := 0
  image : Nat := 0
  name : Nat := 0
  name_space : Nat := 0
  type_token : Nat := 0
  vtable_size : Int := 0
  interface_count : Nat := 0
  interface_id : Nat := 0
  max_interface_id : Nat := 0
  interface_offset_count : Nat := 0
  interfaces_packed : Nat := 0
  interface_offsets_packed : Nat := 0
  interface_bitmap : Nat := 0
  interfaces : Nat := 0
  sizes : Int := 0
  fields : Nat := 0
  methods : Nat := 0
  this_arg : MonoType := {}
  byval_arg : MonoType := {}
  gc_descr : Nat := 0
  runtime_info : Nat := 0
  vtable : Nat := 0
  infrequent_data : Nat := 0
  user_data : Nat := 0

/-- `MonoClassDef` of mono_v2_x64.rs. -/
structure MonoClassDef where
  klass : MonoClass := {}
  flags : Nat := 0
  first_method_idx : Nat := 0
  first_field_idx : Nat := 0
  method_count : Nat := 0
  field_count : Nat := 0
  next_class_cache : Nat := 0

/-- `MonoClassRuntimeInfo` of mono_v2_x64.rs. -/
structure MonoClassRuntimeInfo where
  max_domain : Nat := 0
  domain_vtables : Nat := 0

/-- `MonoClassField` of mono_v2_x64.rs
(`\x7b type, name, parent, offset: i32, _padding \x7d`, `repr(C)` size 32). -/
structure MonoClassField where
  type : Nat := 0
  name : Nat := 0
  parent : Nat := 0
  offset : Int := 0

/-- The attached Mono v2 x64 module: the resolved `assemblies` root pointer. -/
structure MonoModule where
  assemblies : Nat := 0

/-- Size in bytes of the `repr(C)` `MonoVTable` of mono_v2_x64.rs:
5 pointers (40) + u32 (44) + u8 + u8 + 2 pad (48) + u32 (52) + u32 (56)
+ pointer (64) + pointer (72). -/
def MonoVTable.sizeOf : Nat := 72

end MonoV2x64

namespace MonoV2x86

/-- `GList` of mono_v2_x86.rs. -/
structure GList where
  data : Nat := 0
  next : Nat := 0
  prev : Nat := 0

/-- `MonoInternalHashTable` of mono_v2_x86.rs. -/
structure MonoInternalHashTable where
  hash_func : Nat := 0
  key_extract : Nat := 0
  next_value : Nat := 0
  size : Int := 0
  num_entries : Int := 0
  table : Nat := 0

/-- `MonoType` of mono_v2_x86.rs. -/
structure MonoType where
  data : Nat := 0
  attrs : Nat := 0
  type : Nat := 0
  flags : Nat := 0
  modifiers : Nat := 0

/-- `MonoClass` of mono_v2_x86.rs (`vtable_size`: i32). -/
structure MonoClass where
  element_class : Nat := 0
  cast_class : Nat := 0
  supertypes : Nat := 0
  idepth : Nat := 0
  rank : Nat := 0
  instance_size : Int := 0
  flags1 : Nat := 0
  min_align : Nat := 0
  flags2 : Nat := 0
  parent : Nat := 0
  nested_in : Nat := 0
  image : Nat := 0
  name : Nat := 0
  name_space : Nat := 0
  type_token : Nat := 0
  vtable_size : Int := 0
  interface_count : Nat := 0
  interface_id : Nat := 0
  max_interface_id : Nat := 0
  interface_offset_count : Nat := 0
  interfaces_packed : Nat := 0
  interface_offsets_packed : Nat := 0
  interface_bitmap : Nat := 0
  interfaces : Nat := 0
  sizes : Int := 0
  fields : Nat := 0
  methods : Nat := 0
  this_arg : MonoType := {}
  byval_arg : MonoType := {}
  gc_descr : Nat := 0
  runtime_info : Nat := 0
  vtable : Nat := 0
  infrequent_data : Nat := 0
  user_data : Nat := 0

/-- `MonoClassDef` of mono_v2_x86.rs. -/
structure MonoClassDef where
  klass : MonoClass := {}
  flags : Nat := 0
  first_method_idx : Nat := 0
  first_field_idx : Nat := 0
  method_count : Nat := 0
  field_count : Nat := 0
  next_class_cache : Nat := 0

/-- `MonoClassRuntimeInfo` of mono_v2_x86.rs. -/
structure MonoClassRuntimeInfo where
  max_domain : Nat := 0
  domain_vtables : Nat := 0

/-- `MonoClassField` of mono_v2_x86.rs (`repr(C)` size 16). -/
structure MonoClassField where
  type : Nat := 0
  name : Nat := 0
  parent : Nat := 0
  offset : Int := 0

/-- The attached Mono v2 x86 module. -/
structure MonoModule where
  assemblies : Nat := 0

/-- Size in bytes of the `repr(C)` `MonoVTable` of mono_v2_x86.rs:
5 pointers (20) + u32 (24) + u8 + u8 + 2 pad (28) + u32 (32) + u32 (36)
+ pointer (40) + pointer (44). -/
def MonoVTable.sizeOf : Nat := 44

end MonoV2x86

/-- The external process-access capability: module tables, machine types,
pattern scanning and typed reads, every one fallible.  `scan` is keyed by the
literal pattern string and the scanned `(base, size)` range; `readBytes n a`
reads the `n`-byte window at `a`; the struct readers decode one `repr(C)`
value at the given address. -/
structure Proc where
  getModuleRange : String → Option (Nat × Nat)
  getModuleAddress : String → Option Nat
  machineType : Nat → Option MachineType
  scan : String → Nat × Nat → Option Nat
  readU16x6 : Nat → Option (List Nat)
  readI32 : Nat → Option Int
  readU32 : Nat → Option Nat
  readBytes : Nat → Nat → Option (List Nat)
  readPtr64 : Nat → Option Nat
  readPtr32 : Nat → Option Nat
  readAssembly2020 : Nat → Option Il2cpp2020.MonoAssembly
  readImage2020 : Nat → Option Il2cpp2020.MonoImage
  readClass2020 : Nat → Option Il2cpp2020.MonoClass
  readClassField2020 : Nat → Option Il2cpp2020.MonoClassField
  readClassDefV2x64 : Nat → Option MonoV2x64.MonoClassDef
  readClassFieldV2x64 : Nat → Option MonoV2x64.MonoClassField
  readRuntimeInfoV2x64 : Nat → Option MonoV2x64.MonoClassRuntimeInfo
  readClassDefV2x86 : Nat → Option MonoV2x86.MonoClassDef
  readRuntimeInfoV2x86 : Nat → Option MonoV2x86.MonoClassRuntimeInfo

/-- A process state whose every probe fails; concrete states override the
fields they need. -/
def emptyProc : Proc where
  getModuleRange := fun _ => none
  getModuleAddress := fun _ => none
  machineType := fun _ => none
  scan := fun _ _ => none
  readU16x6 := fun _ => none
  readI32 := fun _ => none
  readU32 := fun _ => none
  readBytes := fun _ _ => none
  readPtr64 := fun _ => none
  readPtr32 := fun _ => none
  readAssembly2020 := fun _ => none
  readImage2020 := fun _ => none
  readClass2020 := fun _ => none
  readClassField2020 := fun _ => none
  readClassDefV2x64 := fun _ => none
  readClassFieldV2x64 := fun _ => none
  readRuntimeInfoV2x64 := fun _ => none
  readClassDefV2x86 := fun _ => none
  readRuntimeInfoV2x86 := fun _ => none

/-- `SIG_64_ASSEMBLIES_TRG_IL2CPP` of mod.rs. -/
def SIG_64_ASSEMBLIES_TRG_IL2CPP : String := "48 FF C5 80 3C ?? 00 75 ?? 48 8B 1D"

/-- `SIG_64_TYPE_INFO_DEFINITION_TABLE_TRG` of mod.rs. -/
def SIG_64_TYPE_INFO_DEFINITION_TABLE_TRG : String := "48 83 3C ?? 00 75 ?? 8B C? E8"

/-- `SIG_MONO_64` of mod.rs. -/
def SIG_MONO_64 : String := "48 8B 0D"

/-- `SIG_MONO_32_1` of mod.rs. -/
def SIG_MONO_32_1 : String := "FF 35"

/-- `SIG_MONO_32_2` of mod.rs. -/
def SIG_MONO_32_2 : String := "8B 0D"

/-- The UTF-16LE "Unity Version" signature (`SIG` in `detect_version`). -/
def SIG_UNITY_VERSION : String :=
  "55 00 6E 00 69 00 74 00 79 00 20 00 56 00 65 00 72 00 73 00 69 00 6F 00 6E"

/-- `SIG_METADATA` in `detect_version` (called `SIG_IL2CPP_METADATA` in the spec). -/
def SIG_METADATA : String := "4C 8B 05 ?? ?? ?? ?? 49 63"

/-- `detect_version` of mod.rs, translated match-for-match. -/
def detect_version (p : Proc) : Option MonoVersion :=
  match p.getModuleRange "GameAssembly.dll" with
  | some gameassembly =>
    match p.getModuleRange "UnityPlayer.dll" with
    | none => none
    | some unity_module =>
      match p.machineType unity_module.1 with
      | none => none
      | some MachineType.x86 => none
      | some MachineType.x86_64 =>
        match p.scan SIG_UNITY_VERSION unity_module with
        | none => none
        | some sa =>
          match p.readU16x6 (sa + 0x1E) with
          | none => none
          | some version_string =>
            match splitOn 46 (version_string.map (fun m => m % 256)) with
            | [] => none
            | version :: _ =>
              let il2cpp := get_version_no version
              if il2cpp < 2019 then some MonoVersion.Il2Cpp_base_x64
              else if il2cpp = 2019 then some MonoVersion.Il2Cpp_2019_x64
              else
                match p.scan SIG_METADATA gameassembly with
                | none => some MonoVersion.Il2Cpp_2019_x64
                | some maddr =>
                  match p.readI32 (maddr + 3) with
                  | none => none
                  | some disp =>
                    match p.readI32 (addSigned (maddr + 3 + 0x4) disp + 4) with
                    | none => none
                    | some version =>
                      if version < 27 then some MonoVersion.Il2Cpp_2019_x64
                      else some MonoVersion.Il2Cpp_2020_x64
  | none =>
    match p.getModuleAddress "mono.dll" with
    | some x =>
      match p.machineType x with
      | none => none
      | some MachineType.x86 => some MonoVersion.MonoV1_x86
      | some MachineType.x86_64 => some MonoVersion.MonoV1_x64
    | none =>
      match p.getModuleAddress "mono-2.0-bdwgc.dll" with
      | none => none
      | some _ =>
        match p.getModuleRange "UnityPlayer.dll" with
        | none => none
        | some unity_module =>
          match p.scan SIG_UNITY_VERSION unity_module with
          | none => none
          | some sa =>
            match p.readU16x6 (sa + 0x1E) with
            | none => none
            | some version_string =>
              match splitOn 46 (version_string.map (fun m => m % 256)) with
              | [] => none
              | version :: rest =>
                let unity_version := get_version_no version
                match rest with
                | [] => none
                | minor :: _ =>
                  let minor_version := get_version_no minor
                  match p.machineType unity_module.1 with
                  | none => none
                  | some mt =>
                    if (unity_version = 2021 ∧ 2 ≤ minor_version) ∨ 2021 < unity_version then
                      some MonoVersion.MonoV3_x64
                    else
                      match mt with
                      | MachineType.x86 => some MonoVersion.MonoV2_x86
                      | MachineType.x86_64 => some MonoVersion.MonoV2_x64

/-- A first-match scan over indexed slots, as compiled from the iterator
chains `(0..count).filter_map(read).find(ok)` / `(0..count).flat_map(read)
.find(ok)` of the source: a slot whose read yields `none` is skipped. -/
def searchFrom {α : Type} (read : Nat → Option α) (ok : α → Bool) : Nat → Nat → Option α
  | 0, _ => none
  | k + 1, i =>
    match read i with
    | none => searchFrom read ok k (i + 1)
    | some f => if ok f then some f else searchFrom read ok k (i + 1)

/-- A first-match walk along an intrusive chain, as compiled from the
`iter::from_fn` chain walk of the Mono v2 `classes()` iterators: the walk
ends at a null link or at a failed read. -/
def chainSearch {β : Type} (read : Nat → Option β) (ok : β → Bool) (next : β → Nat) :
    Nat → Nat → Option β
  | 0, _ => none
  | k + 1, ptr =>
    if ptr = 0 then none
    else
      match read ptr with
      | none => none
      | some c => if ok c then some c else chainSearch read ok next k (next c)

/-- A first-success scan over buckets, as compiled from the outer
`(0..size).flat_map(bucket)` of the Mono v2 `classes()` iterators composed
with `find`. -/
def bucketSearch {β : Type} (findInBucket : Nat → Option β) : Nat → Nat → Option β
  | 0, _ => none
  | k + 1, i =>
    match findInBucket i with
    | some c => some c
    | none => bucketSearch findInBucket k (i + 1)

/-- Bytes of the ASCII string "Assembly-CSharp". -/
def bytesAssemblyCSharp : List Nat :=
  [65, 115, 115, 101, 109, 98, 108, 121, 45, 67, 83, 104, 97, 114, 112]

/-- Bytes of the 21-character ASCII string "mono_assembly_foreach". -/
def monoAssemblyForeachBytes : List Nat :=
  [109, 111, 110, 111, 95, 97, 115, 115, 101, 109, 98, 108, 121, 95,
   102, 111, 114, 101, 97, 99, 104]

namespace Il2cpp2020

/-- The assembly-array walk of `MonoModule::get_image` in il2cpp_2020.rs:
read the slot, stop at a null slot, read the assembly, compare the
NUL-truncated 128-byte name window, on a match read the image, otherwise
advance by one pointer (`offset(1)`).  The extra fuel argument bounds the
otherwise unbounded `loop`. -/
def getImageLoop (p : Proc) (assembly_name : List Nat) : Nat → Nat → Option MonoImage
  | 0, _ => none
  | fuel + 1, assemblies =>
    match p.readPtr64 assemblies with
    | none => none
    | some ptr =>
      if ptr = 0 then none
      else
        match p.readAssembly2020 ptr with
        | none => none
        | some mono_assembly =>
          match p.readBytes 128 mono_assembly.aname.name with
          | none => none
          | some this_name =>
            if truncAtNul this_name = assembly_name then
              p.readImage2020 mono_assembly.image
            else getImageLoop p assembly_name fuel ((assemblies + 8) % 2 ^ 64)

/-- `MonoModule::get_image` of il2cpp_2020.rs. -/
def get_image (p : Proc) (m : MonoModule) (assembly_name : List Nat) (fuel : Nat) :
    Option MonoImage :=
  getImageLoop p assembly_name fuel m.assemblies

/-- `type_info_definition_table.offset(metadata_handle as _)`: the handle is
an `i32` sign-extended to `usize` and scaled by one pointer. -/
def typeTableBase (m : MonoModule) (handle : Int) : Nat :=
  addSigned m.type_info_definition_table (8 * handle)

/-- One step of the `classes()` iterator of il2cpp_2020.rs: `ptr.index(process, i)`,
a failed or null slot yielding nothing, a valid slot dereferenced to `MonoClass`. -/
def readClassSlot (p : Proc) (base : Nat) (i : Nat) : Option MonoClass :=
  match p.readPtr64 ((base + i * 8 % 2 ^ 64) % 2 ^ 64) with
  | none => none
  | some class_ptr => if class_ptr = 0 then none else p.readClass2020 class_ptr

/-- The `find` predicate of `MonoImageContainer::get_class` in il2cpp_2020.rs:
the NUL-truncated 128-byte name window equals the query and `fields` is
non-null; a failed name read compares as false. -/
def classMatch (p : Proc) (c : MonoClass) (class_name : List Nat) : Bool :=
  match p.readBytes 128 c.name with
  | some success => truncAtNul success == class_name && c.fields != 0
  | none => false

/-- `MonoImageContainer::get_class` of il2cpp_2020.rs. -/
def get_class (p : Proc) (m : MonoModule) (img : MonoImage) (class_name : List Nat) :
    Option MonoClass :=
  match p.readI32 img.metadata_handle with
  | none => none
  | some handle =>
    searchFrom (readClassSlot p (typeTableBase m handle))
      (fun c => classMatch p c class_name) img.type_count 0

/-- `class.fields.index(process, i)`: the address of the i-th `MonoClassField`
(stride 32 = size of the `repr(C)` struct). -/
def fieldAddr (c : MonoClass) (i : Nat) : Nat := (c.fields + i * 32 % 2 ^ 64) % 2 ^ 64

/-- The `find` predicate of `MonoClassContainer::get_field` in il2cpp_2020.rs:
a failed name read compares as false (`let Ok(..) = .. else return false`). -/
def fieldMatch (p : Proc) (f : MonoClassField) (name : List Nat) : Bool :=
  match p.readBytes 128 f.name with
  | some field_name => truncAtNul field_name == name
  | none => false

/-- `MonoClassContainer::get_field` of il2cpp_2020.rs: the offset of the first
name-matched field, `i32` reinterpreted `as _` into the unsigned result. -/
def get_field (p : Proc) (c : MonoClass) (name : List Nat) : Option Nat :=
  (searchFrom (fun i => p.readClassField2020 (fieldAddr c i))
      (fun f => fieldMatch p f name) c.field_count 0).map
    (fun f => u64ofI f.offset)

/-- `MonoClassContainer::get_static_table` of il2cpp_2020.rs. -/
def get_static_table (c : MonoClass) : Option Nat :=
  if c.static_fields = 0 then none else some c.static_fields

/-- `MonoModule::attach` of il2cpp_2020.rs: scan for the two signatures in
`GameAssembly.dll` and resolve the RIP-relative roots. -/
def attach (p : Proc) : Option MonoModule :=
  match p.getModuleRange "GameAssembly.dll" with
  | none => none
  | some mono_module =>
    match p.scan SIG_64_ASSEMBLIES_TRG_IL2CPP mono_module with
    | none => none
    | some s =>
      match p.readI32 (s + 12) with
      | none => none
      | some d =>
        match p.readPtr64 (addSigned (s + 12 + 0x4) d) with
        | none => none
        | some assemblies =>
          match p.scan SIG_64_TYPE_INFO_DEFINITION_TABLE_TRG mono_module with
          | none => none
          | some s2 =>
            match p.readI32 (addSigned s2 (-4)) with
            | none => none
            | some d2 =>
              match p.readPtr64 (addSigned (addSigned s2 (-4) + 0x4) d2) with
              | none => none
              | some type_info_definition_table =>
                some { assemblies := assemblies,
                       type_info_definition_table := type_info_definition_table }

end Il2cpp2020

/-- The export-table loop shared verbatim by `MonoModule::attach` of
mono_v2_x64.rs and mono_v2_x86.rs: for each slot read the name RVA and a
21-byte window at it (any failed read aborts the whole attach), compare the
21 bytes against "mono_assembly_foreach", and on the first match return
`base + u32 @ base + function_address_array_index + 4·slot`; an exhausted
loop leaves the address NULL (returned here as `some 0`). -/
def exportScan (p : Proc) (base fnai faai : Nat) : Nat → Nat → Option Nat
  | 0, _ => some 0
  | n + 1, val =>
    match p.readU32 (base + fnai + val * 4) with
    | none => none
    | some function_name_index =>
      match p.readBytes 21 (base + function_name_index) with
      | none => none
      | some function_name =>
        if function_name = monoAssemblyForeachBytes then
          match p.readU32 (base + faai + val * 4) with
          | none => none
          | some fa => some (base + fa)
        else exportScan p base fnai faai n (val + 1)

/-- The common 64-bit Mono attach path (`MonoModule::attach` of
mono_v2_x64.rs, parameterized by the module name): PE export walk
(`MonoPEOffsets::new(true)`: signature 0x3C, export directory 0x88,
counts at +0x14/+0x1C/+0x20), export scan for `mono_assembly_foreach`,
then `SIG_MONO_64` in its first 0x100 bytes and a RIP-relative decode at
match + 3; returns the resolved `assemblies` root pointer. -/
def monoAttach64 (p : Proc) (module_name : String) : Option Nat :=
  match p.getModuleAddress module_name with
  | none => none
  | some mono_module =>
    match p.readU32 (mono_module + 0x3C) with
    | none => none
    | some start_index =>
      match p.readU32 (mono_module + start_index + 0x88) with
      | none => none
      | some export_directory =>
        match p.readU32 (mono_module + export_directory + 0x14),
            p.readU32 (mono_module + export_directory + 0x1C),
            p.readU32 (mono_module + export_directory + 0x20) with
        | some number_of_functions, some function_address_array_index,
            some function_name_array_index =>
          match exportScan p mono_module function_name_array_index
              function_address_array_index number_of_functions 0 with
          | none => none
          | some root_domain_function_address =>
            if root_domain_function_address = 0 then none
            else
              match p.scan SIG_MONO_64 (root_domain_function_address, 0x100) with
              | none => none
              | some s =>
                match p.readI32 (s + 3) with
                | none => none
                | some d => some (addSigned (s + 3 + 0x4) d)
        | _, _, _ => none

/-- The common 32-bit Mono attach path (`MonoModule::attach` of
mono_v2_x86.rs, parameterized by the module name): PE export walk with the
32-bit export-directory offset 0x78, export scan, then `SIG_MONO_32_1`
(preferred) or `SIG_MONO_32_2`, operand at match + 2 read as an absolute
32-bit pointer. -/
def monoAttach32 (p : Proc) (module_name : String) : Option Nat :=
  match p.getModuleAddress module_name with
  | none => none
  | some mono_module =>
    match p.readU32 (mono_module + 0x3C) with
    | none => none
    | some start_index =>
      match p.readU32 (mono_module + start_index + 0x78) with
      | none => none
      | some export_directory =>
        match p.readU32 (mono_module + export_directory + 0x14),
            p.readU32 (mono_module + export_directory + 0x1C),
            p.readU32 (mono_module + export_directory + 0x20) with
        | some number_of_functions, some function_address_array_index,
            some function_name_array_index =>
          match exportScan p mono_module function_name_array_index
              function_address_array_index number_of_functions 0 with
          | none => none
          | some root_domain_function_address =>
            if root_domain_function_address = 0 then none
            else
              let scan_address :=
                match p.scan SIG_MONO_32_1 (root_domain_function_address, 0x100) with
                | some x => some (x + 2)
                | none =>
                  match p.scan SIG_MONO_32_2 (root_domain_function_address, 0x100) with
                  | some y => some (y + 2)
                  | none => none
              match scan_address with
              | none => none
              | some sa => p.readPtr32 sa
        | _, _, _ => none

namespace MonoV2x64

/-- `MonoModule::attach` of mono_v2_x64.rs. -/
def attach (p : Proc) : Option MonoModule :=
  (monoAttach64 p "mono-2.0-bdwgc.dll").map (fun a => { assemblies := a })

/-- The `find` predicate of `MonoImageContainer::get_class` in mono_v2_x64.rs:
NUL-truncated name window of `c.klass.name` equals the query and
`c.klass.fields` is non-null; a failed name read compares as false. -/
def classMatch (p : Proc) (c : MonoClassDef) (class_name : List Nat) : Bool :=
  match p.readBytes 128 c.klass.name with
  | some success => truncAtNul success == class_name && c.klass.fields != 0
  | none => false

/-- The first match along one `next_class_cache` chain of the `classes()`
iterator of mono_v2_x64.rs (fuel bounds the unbounded chain). -/
def chainFind (p : Proc) (class_name : List Nat) (fuel head : Nat) : Option MonoClassDef :=
  chainSearch p.readClassDefV2x64 (fun c => classMatch p c class_name)
    (fun c => c.next_class_cache) fuel head

/-- `class_cache.table.index(process, i).unwrap_or(null)`: the i-th bucket
head, a failed read recovered as a null pointer. -/
def bucketAt (p : Proc) (img : MonoImage) (i : Nat) : Nat :=
  (p.readPtr64 ((img.class_cache.table + i * 8 % 2 ^ 64) % 2 ^ 64)).getD 0

/-- `MonoImageContainer::get_class` of mono_v2_x64.rs: first match over
`class_cache.size` buckets (an `i32` reinterpreted `as usize`) and their
chains. -/
def get_class (p : Proc) (img : MonoImage) (class_name : List Nat) (fuel : Nat) :
    Option MonoClassDef :=
  bucketSearch (fun i => chainFind p class_name fuel (bucketAt p img i))
    (u64ofI img.class_cache.size) 0

/-- `class.klass.fields.index(process, i)`: address of the i-th
`MonoClassField` (stride 32 = size of the `repr(C)` struct). -/
def fieldAddr (c : MonoClassDef) (i : Nat) : Nat :=
  (c.klass.fields + i * 32 % 2 ^ 64) % 2 ^ 64

/-- The `find` predicate of `MonoClassContainer::get_field` in mono_v2_x64.rs:
the name window read is `unwrap_or([0; 128])` — a FAILED read is replaced by
an all-zero buffer, whose NUL truncation is the empty name. -/
def fieldMatch (p : Proc) (f : MonoClassField) (name : List Nat) : Bool :=
  truncAtNul ((p.readBytes 128 f.name).getD (List.replicate 128 0)) == name

/-- `MonoClassContainer::get_field` of mono_v2_x64.rs. -/
def get_field (p : Proc) (c : MonoClassDef) (name : List Nat) : Option Nat :=
  (searchFrom (fun i => p.readClassFieldV2x64 (fieldAddr c i))
      (fun f => fieldMatch p f name) c.field_count 0).map
    (fun f => u64ofI f.offset)

/-- `MonoClassContainer::get_static_table` of mono_v2_x64.rs:
`runtime_info.read()?.domain_vtables.byte_offset(sizeof(MonoVTable) -
sizeof(ptr)).cast::<MonoPtr64>().index(process, vtable_size as usize)`,
null result mapped to `None`. -/
def get_static_table (p : Proc) (c : MonoClassDef) : Option Nat :=
  match p.readRuntimeInfoV2x64 c.klass.runtime_info with
  | none => none
  | some rti =>
    match p.readPtr64 (((rti.domain_vtables + (MonoVTable.sizeOf - 8)) % 2 ^ 64
        + u64ofI c.klass.vtable_size * 8 % 2 ^ 64) % 2 ^ 64) with
    | none => none
    | some addr => if addr = 0 then none else some addr

end MonoV2x64

namespace MonoV2x86

/-- `MonoModule::attach` of mono_v2_x86.rs. -/
def attach (p : Proc) : Option MonoModule :=
  (monoAttach32 p "mono-2.0-bdwgc.dll").map (fun a => { assemblies := a })

/-- The `find` predicate of `MonoImageContainer::get_class` in mono_v2_x86.rs. -/
def classMatch (p : Proc) (c : MonoClassDef) (class_name : List Nat) : Bool :=
  match p.readBytes 128 c.klass.name with
  | some success => truncAtNul success == class_name && c.klass.fields != 0
  | none => false

/-- One `next_class_cache` chain of the `classes()` iterator of mono_v2_x86.rs. -/
def chainFind (p : Proc) (class_name : List Nat) (fuel head : Nat) : Option MonoClassDef :=
  chainSearch p.readClassDefV2x86 (fun c => classMatch p c class_name)
    (fun c => c.next_class_cache) fuel head

/-- `class_cache.table.index(process, i).unwrap_or(null)` (stride 4,
32-bit pointers). -/
def bucketAt (p : Proc) (img : MonoInternalHashTable) (i : Nat) : Nat :=
  (p.readPtr32 ((img.table + i * 4 % 2 ^ 64) % 2 ^ 64)).getD 0

/-- `MonoImageContainer::get_class` of mono_v2_x86.rs (the image argument is
reduced to its `class_cache`, the only field the function consults). -/
def get_class (p : Proc) (cache : MonoInternalHashTable) (class_name : List Nat)
    (fuel : Nat) : Option MonoClassDef :=
  bucketSearch (fun i => chainFind p class_name fuel (bucketAt p cache i))
    (u64ofI cache.size) 0

/-- `MonoClassContainer::get_static_table` of mono_v2_x86.rs:
`byte_offset` is 32-bit arithmetic (`sizeof(MonoVTable) - sizeof(ptr)` = 40),
`index` scales the sign-extended `vtable_size` by 4 in 64-bit arithmetic. -/
def get_static_table (p : Proc) (c : MonoClassDef) : Option Nat :=
  match p.readRuntimeInfoV2x86 c.klass.runtime_info with
  | none => none
  | some rti =>
    match p.readPtr32 (((rti.domain_vtables + (MonoVTable.sizeOf - 4)) % 2 ^ 32
        + u64ofI c.klass.vtable_size * 4 % 2 ^ 64) % 2 ^ 64) with
    | none => none
    | some addr => if addr = 0 then none else some addr

end MonoV2x86

/-- The tagged union over the eight walkers (`UnityManager` of mod.rs).
The mono_v1_x86/mono_v1_x64/mono_v3_x64/il2cpp_base/il2cpp_2019 walker
sources are not under src/; their attachments are modelled from the spec
(see `UnityManager.attach`), and their arms carry the resolved roots. -/
inductive UnityManager where
  | monoV1x86 (assemblies : Nat)
  | monoV1x64 (assemblies : Nat)
  | monoV2x86 (m : MonoV2x86.MonoModule)
  | monoV2x64 (m : MonoV2x64.MonoModule)
  | monoV3x64 (assemblies : Nat)
  | il2cppBase (m : Il2cpp2020.MonoModule)
  | il2cpp2019 (m : Il2cpp2020.MonoModule)
  | il2cpp2020 (m : Il2cpp2020.MonoModule)

/-- `UnityManager::attach` of mod.rs: dispatch on the variant tag.
Modelled from the spec: the walker files for Mono v1 (§4.9: "the same
export-scan attachment as v2", module `mono.dll`), Mono v3 (§4.9: "uses the
v2 attachment path", module `mono-2.0-bdwgc.dll`) and IL2CPP base/2019
(§4.7: "structurally identical to §4.6") are missing from src/, so those
arms reuse the corresponding attachment paths of the walkers that are in
src/. -/
def UnityManager.attach (p : Proc) (version : MonoVersion) : Option UnityManager :=
  match version with
  | MonoVersion.MonoV1_x86 => (monoAttach32 p "mono.dll").map UnityManager.monoV1x86
  | MonoVersion.MonoV1_x64 => (monoAttach64 p "mono.dll").map UnityManager.monoV1x64
  | MonoVersion.MonoV2_x86 => (MonoV2x86.attach p).map UnityManager.monoV2x86
  | MonoVersion.MonoV2_x64 => (MonoV2x64.attach p).map UnityManager.monoV2x64
  | MonoVersion.MonoV3_x64 =>
    (monoAttach64 p "mono-2.0-bdwgc.dll").map UnityManager.monoV3x64
  | MonoVersion.Il2Cpp_base_x64 => (Il2cpp2020.attach p).map UnityManager.il2cppBase
  | MonoVersion.Il2Cpp_2019_x64 => (Il2cpp2020.attach p).map UnityManager.il2cpp2019
  | MonoVersion.Il2Cpp_2020_x64 => (Il2cpp2020.attach p).map UnityManager.il2cpp2020

/-- `UnityManager::try_attach` of mod.rs: detect, then dispatch. -/
def UnityManager.try_attach (p : Proc) : Option UnityManager :=
  match detect_version p with
  | none => none
  | some version => UnityManager.attach p version

/-- `MonoPtr64::offset` of mod.rs: `self.0 + count * mem::size_of::<T>() as u64`
(u64 arithmetic, element size `sz`). -/
def MonoPtr64.offset (sz a count : Nat) : Nat := (a + count * sz % 2 ^ 64) % 2 ^ 64

/-- `MonoPtr64::read` of mod.rs: `process.read(self.get())` for a reader
decoding the element type. -/
def MonoPtr64.read {α : Type} (r : Nat → Option α) (a : Nat) : Option α := r a

/-- `MonoPtr64::index` of mod.rs: `process.read(self.get() + (idx *
mem::size_of::<T>()) as u64)`. -/
def MonoPtr64.index {α : Type} (r : Nat → Option α) (sz a idx : Nat) : Option α :=
  r ((a + idx * sz % 2 ^ 64) % 2 ^ 64)

/-- Modelled from the spec: `MonoPtr32::offset` is commented out in mod.rs;
§4.1 specifies `offset(n) → self (scales by sizeof(T))` for both width
families, and the commented source reads `self.0 + count *
mem::size_of::<T>() as u32` (32-bit arithmetic on the 32-bit address). -/
def MonoPtr32.offset (sz a count : Nat) : Nat := (a + count * sz % 2 ^ 32) % 2 ^ 32

/-- `MonoPtr32::read` of mod.rs: `process.read(self.get())`; `get()`
zero-extends the 32-bit address. -/
def MonoPtr32.read {α : Type} (r : Nat → Option α) (a : Nat) : Option α := r a

/-- `MonoPtr32::index` of mod.rs: `process.read(self.get() + (idx *
mem::size_of::<T>()) as u64)` — the addition is performed on the
zero-extended 64-bit `Address`. -/
def MonoPtr32.index {α : Type} (r : Nat → Option α) (sz a idx : Nat) : Option α :=
  r ((a + idx * sz % 2 ^ 64) % 2 ^ 64)

/-- A 128-byte window of target memory at `base` holding `bs` padded with
NULs; addresses outside the window are unmapped. -/
def window (base : Nat) (bs : List Nat) (a : Nat) : Option Nat :=
  if base ≤ a ∧ a < base + 128 then some (bs.getD (a - base) 0) else none

/-- Bytes of the ASCII string "Player". -/
def bytesPlayer : List Nat := [80, 108, 97, 121, 101, 114]

/-- Bytes of the ASCII string "hp". -/
def bytesHp : List Nat := [104, 112]

/-- Concrete state for the stale-null-slot scenario: an IL2CPP assemblies
array at 1000 whose slot 0 (at 1000) holds an assembly named "A", slot 1
(at 1008) is null, and slot 2 (at 1016) holds an assembly named
"Assembly-CSharp". -/
def memC3 (a : Nat) : Option Nat :=
  match window 4000 [65] a with
  | some b => some b
  | none => window 5000 bytesAssemblyCSharp a

/-- The process of the stale-null-slot scenario. -/
def pC3 : Proc :=
  { emptyProc with
    readPtr64 := fun a =>
      if a = 1000 then some 2000
      else if a = 1008 then some 0
      else if a = 1016 then some 3000 else none,
    readAssembly2020 := fun a =>
      if a = 2000 then some { aname := { name := 4000 } }
      else if a = 3000 then some { aname := { name := 5000 } } else none,
    readBytes := readRangeBytes memC3 }

/-- The attached IL2CPP module of the stale-null-slot scenario. -/
def mC3 : Il2cpp2020.MonoModule := { assemblies := 1000 }

/-- An IL2CPP image with `type_count = 0`. -/
def imgZero : Il2cpp2020.MonoImage := {}

/-- Concrete state for the IL2CPP version-detection witness:
Unity version "2021.3", metadata version 29. -/
def pW1 : Proc :=
  { emptyProc with
    getModuleRange := fun n =>
      if n = "GameAssembly.dll" then some (100, 50)
      else if n = "UnityPlayer.dll" then some (200, 60) else none,
    machineType := fun a => if a = 200 then some MachineType.x86_64 else none,
    scan := fun sig _ =>
      if sig = SIG_UNITY_VERSION then some 300
      else if sig = SIG_METADATA then some 400 else none,
    readU16x6 := fun a => if a = 330 then some [50, 48, 50, 49, 46, 51] else none,
    readI32 := fun a => if a = 403 then some 100 else if a = 511 then some 29 else none }

/-- Concrete state for the Mono version-detection witness: no GameAssembly,
`mono-2.0-bdwgc.dll` present, Unity version "2021.1", 64-bit player. -/
def pW2 : Proc :=
  { emptyProc with
    getModuleRange := fun n => if n = "UnityPlayer.dll" then some (200, 60) else none,
    getModuleAddress := fun n => if n = "mono-2.0-bdwgc.dll" then some 300 else none,
    machineType := fun a => if a = 200 then some MachineType.x86_64 else none,
    scan := fun sig _ => if sig = SIG_UNITY_VERSION then some 400 else none,
    readU16x6 := fun a => if a = 430 then some [50, 48, 50, 49, 46, 49] else none }

/-- An IL2CPP class named "Player" (name window at 6000) with non-null fields. -/
def clsW4 : Il2cpp2020.MonoClass := { name := 6000, fields := 5 }

/-- A Mono v2 x64 cached class named "Player" with non-null fields. -/
def cdW4x64 : MonoV2x64.MonoClassDef := { klass := { name := 6000, fields := 6 } }

/-- A Mono v2 x86 cached class named "Player" with non-null fields. -/
def cdW4x86 : MonoV2x86.MonoClassDef := { klass := { name := 6000, fields := 7 } }

/-- Concrete state for the get_class postcondition witness, covering the
IL2CPP 2020 walker (type table at 900), the Mono v2 x64 walker (class-cache
table at 940) and the Mono v2 x86 walker (class-cache table at 970). -/
def pW4 : Proc :=
  { emptyProc with
    readI32 := fun a => if a = 880 then some 0 else none,
    readPtr64 := fun a => if a = 900 then some 910 else if a = 940 then some 950 else none,
    readPtr32 := fun a => if a = 970 then some 980 else none,
    readClass2020 := fun a => if a = 910 then some clsW4 else none,
    readClassDefV2x64 := fun a => if a = 950 then some cdW4x64 else none,
    readClassDefV2x86 := fun a => if a = 980 then some cdW4x86 else none,
    readBytes := readRangeBytes (window 6000 bytesPlayer) }

/-- The attached module of the get_class witness. -/
def mW4 : Il2cpp2020.MonoModule := { assemblies := 0, type_info_definition_table := 900 }

/-- The IL2CPP image of the get_class witness: one type, handle read at 880. -/
def imgW4 : Il2cpp2020.MonoImage := { type_count := 1, metadata_handle := 880 }

/-- The Mono v2 x64 image of the get_class witness. -/
def imgW4m : MonoV2x64.MonoImage := { class_cache := { size := 1, table := 940 } }

/-- The Mono v2 x86 class cache of the get_class witness. -/
def cacheW4 : MonoV2x86.MonoInternalHashTable := { size := 1, table := 970 }

/-- A Mono v2 x64 class with one field entry at 8000 whose name pointer 9000
is unreadable; `offset` 7. -/
def cC5 : MonoV2x64.MonoClassDef := { klass := { fields := 8000 }, field_count := 1 }

/-- The field entry of the C5 counterexample. -/
def fC5 : MonoV2x64.MonoClassField := { name := 9000, offset := 7 }

/-- The process of the C5 counterexample: the field entry itself is readable,
its name window is not. -/
def pC5 : Proc :=
  { emptyProc with readClassFieldV2x64 := fun a => if a = 8000 then some fC5 else none }

/-- The claim's notion of a name-matched field entry, applied to the Mono v2
x64 field array: entry `j` is readable, its 128-byte name window reads
successfully and NUL-truncates to `n`, and its offset reinterprets to `o`. -/
def strictFieldHit (p : Proc) (c : MonoV2x64.MonoClassDef) (n : List Nat) (o j : Nat) :
    Bool :=
  match p.readClassFieldV2x64 (MonoV2x64.fieldAddr c j) with
  | some f =>
    (match p.readBytes 128 f.name with
     | some bs => truncAtNul bs == n
     | none => false) && (u64ofI f.offset == o)
  | none => false

/-- An IL2CPP class with one field entry at 8200. -/
def cW5 : Il2cpp2020.MonoClass := { fields := 8200, field_count := 1 }

/-- The IL2CPP field entry "hp" at offset 0x28 of the C5 amended witness. -/
def fW5 : Il2cpp2020.MonoClassField := { name := 9200, offset := 40 }

/-- A Mono v2 x64 class with one field entry at 8300. -/
def cW5m : MonoV2x64.MonoClassDef := { klass := { fields := 8300 }, field_count := 1 }

/-- The Mono v2 x64 field entry "hp" at offset 41 of the C5 amended witness. -/
def fW5m : MonoV2x64.MonoClassField := { name := 9400, offset := 41 }

/-- Byte memory of the C5 amended witness: "hp" name windows at 9200 and 9400. -/
def memW5 (a : Nat) : Option Nat :=
  match window 9200 bytesHp a with
  | some b => some b
  | none => window 9400 bytesHp a

/-- The process of the C5 amended witness. -/
def pW5 : Proc :=
  { emptyProc with
    readClassField2020 := fun a => if a = 8200 then some fW5 else none,
    readClassFieldV2x64 := fun a => if a = 8300 then some fW5m else none,
    readBytes := readRangeBytes memW5 }

/-- Runtime info of the C6 witness (x64): `domain_vtables` at 10000. -/
def rtiW6 : MonoV2x64.MonoClassRuntimeInfo := { domain_vtables := 10000 }

/-- The Mono v2 x64 class of the C6 witness: `vtable_size` 3. -/
def cW6 : MonoV2x64.MonoClassDef := { klass := { runtime_info := 700, vtable_size := 3 } }

/-- Runtime info of the C6 witness (x86): `domain_vtables` at 11000. -/
def rtiW6b : MonoV2x86.MonoClassRuntimeInfo := { domain_vtables := 11000 }

/-- The Mono v2 x86 class of the C6 witness: `vtable_size` 3. -/
def cW6b : MonoV2x86.MonoClassDef := { klass := { runtime_info := 710, vtable_size := 3 } }

/-- The process of the C6 witness: the static slot of the x64 class lives at
10000 + 64 + 24 = 10088 and holds 777; the x86 one at 11000 + 40 + 12 = 11052
and holds 888. -/
def pW6 : Proc :=
  { emptyProc with
    readRuntimeInfoV2x64 := fun a => if a = 700 then some rtiW6 else none,
    readRuntimeInfoV2x86 := fun a => if a = 710 then some rtiW6b else none,
    readPtr64 := fun a => if a = 10088 then some 777 else none,
    readPtr32 := fun a => if a = 11052 then some 888 else none }

/-- The process of the C7 witness: GameAssembly.dll present, UnityPlayer.dll
present with an x86 machine type. -/
def pW7 : Proc :=
  { emptyProc with
    getModuleRange := fun n =>
      if n = "GameAssembly.dll" then some (100, 50)
      else if n = "UnityPlayer.dll" then some (200, 60) else none,
    machineType := fun a => if a = 200 then some MachineType.x86 else none }

/-- A Mono v2 x64 class with one field entry at 8100 whose name pointer 9100
is unreadable; `offset` 5. -/
def cC8 : MonoV2x64.MonoClassDef := { klass := { fields := 8100 }, field_count := 1 }

/-- The field entry of the C8 counterexample. -/
def fC8 : MonoV2x64.MonoClassField := { name := 9100, offset := 5 }

/-- The process of the C8 counterexample. -/
def pC8 : Proc :=
  { emptyProc with readClassFieldV2x64 := fun a => if a = 8100 then some fC8 else none }

/-- A Mono v2 x64 image whose class-cache bucket reads all fail. -/
def imgW8 : MonoV2x64.MonoImage := {}

/-- A Mono v2 x64 field entry whose name pointer 5 is unreadable. -/
def fW8 : MonoV2x64.MonoClassField := { name := 5 }

/-- The reader of the C9 witness. -/
def rW9 : Nat → Option Nat := fun a => if a = 108 then some 99 else none

/-- Byte memory of the C10 witness: a 21-byte non-matching export name at
3010 and the 22-byte export name "mono_assembly_foreach2" at 3310. -/
def memW10 (a : Nat) : Option Nat :=
  match window 3010 (List.replicate 21 65) a with
  | some b => some b
  | none => window 3310 (monoAssemblyForeachBytes ++ [50]) a

/-- The process of the C10 witness: module base 10, name RVAs at
base + 1000 + 4·slot, address RVAs at base + 2000 + 4·slot; slot 0 names a
non-match, slot 1 names "mono_assembly_foreach2" with function RVA 1280. -/
def pW10 : Proc :=
  { emptyProc with
    readU32 := fun a =>
      if a = 1010 then some 3000
      else if a = 1014 then some 3300
      else if a = 2014 then some 1280 else none,
    readBytes := readRangeBytes memW10 }

theorem chainSearch_zero {β : Type} (read : Nat → Option β) (ok : β → Bool)
    (next : β → Nat) : ∀ fuel, chainSearch read ok next fuel 0 = none := by
  intro fuel; cases fuel <;> simp [chainSearch]

theorem chainSearch_eq_some {β : Type} (read : Nat → Option β) (ok : β → Bool)
    (next : β → Nat) :
    ∀ fuel ptr c, chainSearch read ok next fuel ptr = some c → ok c = true := by
  intro fuel
  induction fuel with
  | zero => intro ptr c h; simp [chainSearch] at h
  | succ n ih =>
    intro ptr c h
    rw [chainSearch] at h
    by_cases hz : ptr = 0
    · rw [if_pos hz] at h; cases h
    · rw [if_neg hz] at h
      cases hr : read ptr with
      | none => rw [hr] at h; cases h
      | some c0 =>
        rw [hr] at h
        cases hok : ok c0 with
        | false => simp [hok] at h; exact ih _ _ h
        | true => simp [hok] at h; subst h; exact hok

theorem bucketSearch_eq_some {β : Type} (f : Nat → Option β) :
    ∀ k i c, bucketSearch f k i = some c → ∃ j, j < k ∧ f (i + j) = some c := by
  intro k
  induction k with
  | zero => intro i c h; simp [bucketSearch] at h
  | succ n ih =>
    intro i c h
    rw [bucketSearch] at h
    cases hf : f i with
    | some c0 =>
      rw [hf] at h
      cases h
      exact ⟨0, by omega, hf⟩
    | none =>
      rw [hf] at h
      obtain ⟨j, hj, hr⟩ := ih (i + 1) c h
      refine ⟨j + 1, by omega, ?_⟩
      rw [show i + (j + 1) = i + 1 + j from by omega]
      exact hr

theorem searchFrom_eq_some {α : Type} (read : Nat → Option α) (ok : α → Bool) :
    ∀ k i f, searchFrom read ok k i = some f →
      ok f = true ∧ ∃ j, j < k ∧ read (i + j) = some f ∧
        ∀ l, l < j → ∀ g, read (i + l) = some g → ok g = false := by
  intro k
  induction k with
  | zero => intro i f h; simp [searchFrom] at h
  | succ n ih =>
    intro i f h
    rw [searchFrom] at h
    cases hr : read i with
    | none =>
      rw [hr] at h
      obtain ⟨hok, j, hj, hread, hfirst⟩ := ih (i + 1) f h
      refine ⟨hok, j + 1, by omega, ?_, ?_⟩
      · rw [show i + (j + 1) = i + 1 + j from by omega]
        exact hread
      · intro l hl g hg
        cases l with
        | zero => rw [Nat.add_zero] at hg; rw [hg] at hr; cases hr
        | succ m =>
          rw [show i + (m + 1) = i + 1 + m from by omega] at hg
          exact hfirst m (by omega) g hg
    | some f0 =>
      simp only [hr] at h
      cases hok : ok f0 with
      | true =>
        rw [hok] at h
        simp at h
        subst h
        refine ⟨hok, 0, by omega, by simpa using hr, ?_⟩
        intro l hl
        exact absurd hl (Nat.not_lt_zero l)
      | false =>
        rw [hok] at h
        simp at h
        obtain ⟨hokf, j, hj, hread, hfirst⟩ := ih (i + 1) f h
        refine ⟨hokf, j + 1, by omega, ?_, ?_⟩
        · rw [show i + (j + 1) = i + 1 + j from by omega]
          exact hread
        · intro l hl g hg
          cases l with
          | zero =>
            rw [Nat.add_zero] at hg
            rw [hg] at hr
            cases hr
            exact hok
          | succ m =>
            rw [show i + (m + 1) = i + 1 + m from by omega] at hg
            exact hfirst m (by omega) g hg

theorem il2cpp_classMatch_elim (p : Proc) (c : Il2cpp2020.MonoClass) (n : List Nat)
    (h : Il2cpp2020.classMatch p c n = true) :
    (∃ bs, p.readBytes 128 c.name = some bs ∧ truncAtNul bs = n) ∧ c.fields ≠ 0 := by
  unfold Il2cpp2020.classMatch at h
  cases hr : p.readBytes 128 c.name with
  | none => rw [hr] at h; cases h
  | some bs =>
    rw [hr] at h
    rw [Bool.and_eq_true, beq_iff_eq, bne_iff_ne] at h
    exact ⟨⟨bs, rfl, h.1⟩, h.2⟩

theorem monoV2x64_classMatch_elim (p : Proc) (c : MonoV2x64.MonoClassDef) (n : List Nat)
    (h : MonoV2x64.classMatch p c n = true) :
    (∃ bs, p.readBytes 128 c.klass.name = some bs ∧ truncAtNul bs = n) ∧
      c.klass.fields ≠ 0 := by
  unfold MonoV2x64.classMatch at h
  cases hr : p.readBytes 128 c.klass.name with
  | none => rw [hr] at h; cases h
  | some bs =>
    rw [hr] at h
    rw [Bool.and_eq_true, beq_iff_eq, bne_iff_ne] at h
    exact ⟨⟨bs, rfl, h.1⟩, h.2⟩

theorem monoV2x86_classMatch_elim (p : Proc) (c : MonoV2x86.MonoClassDef) (n : List Nat)
    (h : MonoV2x86.classMatch p c n = true) :
    (∃ bs, p.readBytes 128 c.klass.name = some bs ∧ truncAtNul bs = n) ∧
      c.klass.fields ≠ 0 := by
  unfold MonoV2x86.classMatch at h
  cases hr : p.readBytes 128 c.klass.name with
  | none => rw [hr] at h; cases h
  | some bs =>
    rw [hr] at h
    rw [Bool.and_eq_true, beq_iff_eq, bne_iff_ne] at h
    exact ⟨⟨bs, rfl, h.1⟩, h.2⟩

/-- C9: for both pointer families and every element type, reader, address
and index, `p.index(i)` and `p.offset(i).read()` read the same target
address `p + i·sizeof(T)` and hence yield identical (byte-identical)
results; for the 32-bit family this holds under the spec's wrap-free
precondition `a + i·sizeof(T) < 2^32`. -/
theorem C9_index_offset_read_agree :
    (∀ (α : Type) (r : Nat → Option α) (sz a i : Nat),
      MonoPtr64.read r (MonoPtr64.offset sz a i) = MonoPtr64.index r sz a i) ∧
    (∀ (α : Type) (r : Nat → Option α) (sz a i : Nat), a + i * sz < 2 ^ 32 →
      MonoPtr32.read r (MonoPtr32.offset sz a i) = MonoPtr32.index r sz a i) := by
  constructor
  · intro α r sz a i
    rfl
  · intro α r sz a i h
    unfold MonoPtr32.read MonoPtr32.offset MonoPtr32.index
    have h32 : (2 : ℕ) ^ 32 = 4294967296 := by norm_num
    have h64 : (2 : ℕ) ^ 64 = 18446744073709551616 := by norm_num
    rw [h32, h64]
    rw [h32] at h
    congr 1
    rw [Nat.mod_eq_of_lt (a := i * sz) (by omega),
      Nat.mod_eq_of_lt (a := i * sz) (by omega),
      Nat.mod_eq_of_lt (by omega), Nat.mod_eq_of_lt (by omega)]

/-- C9 witness: both equalities at the concrete reader `rW9`, element size 4,
address 100, index 2 (both reads land on address 108). -/
theorem C9_index_offset_read_agree_witness :
    MonoPtr64.read rW9 (MonoPtr64.offset 4 100 2) = MonoPtr64.index rW9 4 100 2 ∧
    MonoPtr32.read rW9 (MonoPtr32.offset 4 100 2) = MonoPtr32.index rW9 4 100 2 :=
  ⟨C9_index_offset_read_agree.1 Nat rW9 4 100 2,
   C9_index_offset_read_agree.2 Nat rW9 4 100 2 (by norm_num)⟩

/-- C3: the IL2CPP 2020 assembly walk stops at the first null slot and
returns `None` (first conjunct, and concretely on `pC3` where slot 2 does
hold "Assembly-CSharp" — third conjunct shows the later match exists), and
an image with `type_count = 0` yields no classes, so `get_class` is `None`. -/
theorem C3_null_slot_and_empty_image :
    (∀ (p : Proc) (n : List Nat) (fuel a : Nat), p.readPtr64 a = some 0 →
      Il2cpp2020.getImageLoop p n (fuel + 1) a = none) ∧
    (∀ fuel, Il2cpp2020.get_image pC3 mC3 bytesAssemblyCSharp fuel = none) ∧
    (pC3.readPtr64 1016 = some 3000 ∧
      ∃ a3, pC3.readAssembly2020 3000 = some a3 ∧
        ∃ bs, pC3.readBytes 128 a3.aname.name = some bs ∧
          truncAtNul bs = bytesAssemblyCSharp) ∧
    (∀ (p : Proc) (m : Il2cpp2020.MonoModule) (img : Il2cpp2020.MonoImage)
        (n : List Nat), img.type_count = 0 → Il2cpp2020.get_class p m img n = none) := by
  refine ⟨?_, ?_, ?_, ?_⟩
  · intro p n fuel a h
    simp [Il2cpp2020.getImageLoop, h]
  · intro fuel
    match fuel with
    | 0 => rfl
    | 1 => rfl
    | k + 2 => rfl
  · exact ⟨rfl, ⟨_, rfl, ⟨_, rfl, by decide⟩⟩⟩
  · intro p m img n h
    cases hri : p.readI32 img.metadata_handle with
    | none => simp [Il2cpp2020.get_class, hri]
    | some handle => simp [Il2cpp2020.get_class, hri, h, searchFrom]

/-- C3 witness: the null-slot stop and the empty-image lookup evaluated on
concrete states. -/
theorem C3_null_slot_and_empty_image_witness :
    Il2cpp2020.getImageLoop pC3 [] 1 1008 = none ∧
    Il2cpp2020.get_class pC3 mC3 imgZero [] = none :=
  ⟨C3_null_slot_and_empty_image.1 pC3 [] 0 1008 rfl,
   C3_null_slot_and_empty_image.2.2.2 pC3 mC3 imgZero [] rfl⟩

/-- C4: every class returned by `get_class` (IL2CPP 2020, Mono v2 x64,
Mono v2 x86) has a non-null `fields` pointer and a 128-byte name window that
NUL-truncates to the query. -/
theorem C4_get_class_postcondition :
    (∀ (p : Proc) (m : Il2cpp2020.MonoModule) (img : Il2cpp2020.MonoImage)
        (n : List Nat) (c : Il2cpp2020.MonoClass),
      Il2cpp2020.get_class p m img n = some c →
        (∃ bs, p.readBytes 128 c.name = some bs ∧ truncAtNul bs = n) ∧ c.fields ≠ 0) ∧
    (∀ (p : Proc) (img : MonoV2x64.MonoImage) (n : List Nat) (fuel : Nat)
        (c : MonoV2x64.MonoClassDef),
      MonoV2x64.get_class p img n fuel = some c →
        (∃ bs, p.readBytes 128 c.klass.name = some bs ∧ truncAtNul bs = n) ∧
          c.klass.fields ≠ 0) ∧
    (∀ (p : Proc) (cache : MonoV2x86.MonoInternalHashTable) (n : List Nat) (fuel : Nat)
        (c : MonoV2x86.MonoClassDef),
      MonoV2x86.get_class p cache n fuel = some c →
        (∃ bs, p.readBytes 128 c.klass.name = some bs ∧ truncAtNul bs = n) ∧
          c.klass.fields ≠ 0) := by
  refine ⟨?_, ?_, ?_⟩
  · intro p m img n c h
    unfold Il2cpp2020.get_class at h
    cases hri : p.readI32 img.metadata_handle with
    | none => rw [hri] at h; cases h
    | some handle =>
      rw [hri] at h
      obtain ⟨hok, -⟩ := searchFrom_eq_some _ _ _ _ _ h
      exact il2cpp_classMatch_elim p c n hok
  · intro p img n fuel c h
    unfold MonoV2x64.get_class at h
    obtain ⟨j, hj, hr⟩ := bucketSearch_eq_some _ _ _ _ h
    unfold MonoV2x64.chainFind at hr
    have hok := chainSearch_eq_some _ _ _ _ _ _ hr
    exact monoV2x64_classMatch_elim p c n hok
  · intro p cache n fuel c h
    unfold MonoV2x86.get_class at h
    obtain ⟨j, hj, hr⟩ := bucketSearch_eq_some _ _ _ _ h
    unfold MonoV2x86.chainFind at hr
    have hok := chainSearch_eq_some _ _ _ _ _ _ hr
    exact monoV2x86_classMatch_elim p c n hok

/-- C4 witness: the postcondition instantiated on a concrete lookup of
"Player" through each of the three walkers. -/
theorem C4_get_class_postcondition_witness :
    ((∃ bs, pW4.readBytes 128 clsW4.name = some bs ∧ truncAtNul bs = bytesPlayer) ∧
      clsW4.fields ≠ 0) ∧
    ((∃ bs, pW4.readBytes 128 cdW4x64.klass.name = some bs ∧
        truncAtNul bs = bytesPlayer) ∧ cdW4x64.klass.fields ≠ 0) ∧
    ((∃ bs, pW4.readBytes 128 cdW4x86.klass.name = some bs ∧
        truncAtNul bs = bytesPlayer) ∧ cdW4x86.klass.fields ≠ 0) :=
  ⟨C4_get_class_postcondition.1 pW4 mW4 imgW4 bytesPlayer clsW4 rfl,
   C4_get_class_postcondition.2.1 pW4 imgW4m bytesPlayer 1 cdW4x64 rfl,
   C4_get_class_postcondition.2.2 pW4 cacheW4 bytesPlayer 1 cdW4x86 rfl⟩

/-- C1: in the IL2CPP branch (GameAssembly.dll present, UnityPlayer.dll
present and 64-bit, Unity version scanned and read, major = first '.'
segment): major < 2019 gives Il2Cpp_base_x64; major = 2019 gives
Il2Cpp_2019_x64; major > 2019 with the SIG_IL2CPP_METADATA pattern absent
gives Il2Cpp_2019_x64; with the pattern at A, the metadata version is the
i32 at (A+3) + 4 + i32@(A+3) + 4, and < 27 gives Il2Cpp_2019_x64, else
Il2Cpp_2020_x64. -/
theorem C1_il2cpp_version_detection :
    ∀ (p : Proc) (g u : Nat × Nat) (sa : Nat) (ws vmaj : List Nat)
      (vrest : List (List Nat)),
      p.getModuleRange "GameAssembly.dll" = some g →
      p.getModuleRange "UnityPlayer.dll" = some u →
      p.machineType u.1 = some MachineType.x86_64 →
      p.scan SIG_UNITY_VERSION u = some sa →
      p.readU16x6 (sa + 0x1E) = some ws →
      splitOn 46 (ws.map (fun m => m % 256)) = vmaj :: vrest →
      ((get_version_no vmaj < 2019 →
          detect_version p = some MonoVersion.Il2Cpp_base_x64) ∧
       (get_version_no vmaj = 2019 →
          detect_version p = some MonoVersion.Il2Cpp_2019_x64) ∧
       (2019 < get_version_no vmaj → p.scan SIG_METADATA g = none →
          detect_version p = some MonoVersion.Il2Cpp_2019_x64) ∧
       (∀ (A : Nat) (d mv : Int), 2019 < get_version_no vmaj →
          p.scan SIG_METADATA g = some A →
          p.readI32 (A + 3) = some d →
          p.readI32 (addSigned (A + 3 + 0x4) d + 4) = some mv →
          ((mv < 27 → detect_version p = some MonoVersion.Il2Cpp_2019_x64) ∧
           (27 ≤ mv → detect_version p = some MonoVersion.Il2Cpp_2020_x64)))) := by
  intro p g u sa ws vmaj vrest hga hu hm hs hr hsplit
  refine ⟨?_, ?_, ?_, ?_⟩
  · intro hlt
    simp only [detect_version, hga, hu, hm, hs, hr, hsplit]
    rw [if_pos hlt]
  · intro heq
    simp only [detect_version, hga, hu, hm, hs, hr, hsplit]
    rw [if_neg (by omega), if_pos heq]
  · intro hgt hnone
    simp only [detect_version, hga, hu, hm, hs, hr, hsplit, hnone]
    rw [if_neg (by omega), if_neg (by omega)]
  · intro A d mv hgt hA hd hmv
    constructor
    · intro hlt
      simp only [detect_version, hga, hu, hm, hs, hr, hsplit, hA, hd, hmv]
      rw [if_neg (by omega), if_neg (by omega), if_pos hlt]
    · intro hge
      simp only [detect_version, hga, hu, hm, hs, hr, hsplit, hA, hd, hmv]
      rw [if_neg (by omega), if_neg (by omega), if_neg (by omega)]

/-- C1 witness: Unity "2021.3" with metadata version 29 detects as
Il2Cpp_2020_x64 on the concrete state `pW1`. -/
theorem C1_il2cpp_version_detection_witness :
    detect_version pW1 = some MonoVersion.Il2Cpp_2020_x64 :=
  ((C1_il2cpp_version_detection pW1 (100, 50) (200, 60) 300
      [50, 48, 50, 49, 46, 51] [50, 48, 50, 49] [[51]]
      rfl rfl rfl rfl rfl rfl).2.2.2 400 100 29
    (by decide) rfl rfl rfl).2 (by decide)

/-- C2: in the Mono v2/v3 branch (no GameAssembly.dll, no mono.dll,
mono-2.0-bdwgc.dll present, Unity version parsed to major.minor and the
UnityPlayer machine type known): the detector returns MonoV3_x64 exactly
when major = 2021 ∧ minor ≥ 2 or major > 2021, and otherwise tags by the
UnityPlayer machine type (x86 → MonoV2_x86, x86_64 → MonoV2_x64). -/
theorem C2_mono_version_detection :
    ∀ (p : Proc) (u : Nat × Nat) (b sa : Nat) (ws vmaj vmin : List Nat)
      (vrest : List (List Nat)) (mt : MachineType),
      p.getModuleRange "GameAssembly.dll" = none →
      p.getModuleAddress "mono.dll" = none →
      p.getModuleAddress "mono-2.0-bdwgc.dll" = some b →
      p.getModuleRange "UnityPlayer.dll" = some u →
      p.scan SIG_UNITY_VERSION u = some sa →
      p.readU16x6 (sa + 0x1E) = some ws →
      splitOn 46 (ws.map (fun m => m % 256)) = vmaj :: vmin :: vrest →
      p.machineType u.1 = some mt →
      ((detect_version p = some MonoVersion.MonoV3_x64 ↔
          ((get_version_no vmaj = 2021 ∧ 2 ≤ get_version_no vmin) ∨
            2021 < get_version_no vmaj)) ∧
       (¬((get_version_no vmaj = 2021 ∧ 2 ≤ get_version_no vmin) ∨
            2021 < get_version_no vmaj) →
          ((mt = MachineType.x86 → detect_version p = some MonoVersion.MonoV2_x86) ∧
           (mt = MachineType.x86_64 →
             detect_version p = some MonoVersion.MonoV2_x64)))) := by
  intro p u b sa ws vmaj vmin vrest mt hga hm1 hbd hu hs hr hsplit hmt
  cases mt with
  | x86 =>
    have hred : detect_version p =
        (if (get_version_no vmaj = 2021 ∧ 2 ≤ get_version_no vmin) ∨
            2021 < get_version_no vmaj then some MonoVersion.MonoV3_x64
         else some MonoVersion.MonoV2_x86) := by
      simp only [detect_version, hga, hm1, hbd, hu, hs, hr, hsplit, hmt]
    constructor
    · rw [hred]
      by_cases hc : (get_version_no vmaj = 2021 ∧ 2 ≤ get_version_no vmin) ∨
          2021 < get_version_no vmaj
      · simp [hc]
      · rw [if_neg hc]
        exact ⟨fun h => absurd h (by decide), fun h => absurd h hc⟩
    · intro hc
      rw [hred, if_neg hc]
      exact ⟨fun _ => rfl, fun h => absurd h (by decide)⟩
  | x86_64 =>
    have hred : detect_version p =
        (if (get_version_no vmaj = 2021 ∧ 2 ≤ get_version_no vmin) ∨
            2021 < get_version_no vmaj then some MonoVersion.MonoV3_x64
         else some MonoVersion.MonoV2_x64) := by
      simp only [detect_version, hga, hm1, hbd, hu, hs, hr, hsplit, hmt]
    constructor
    · rw [hred]
      by_cases hc : (get_version_no vmaj = 2021 ∧ 2 ≤ get_version_no vmin) ∨
          2021 < get_version_no vmaj
      · simp [hc]
      · rw [if_neg hc]
        exact ⟨fun h => absurd h (by decide), fun h => absurd h hc⟩
    · intro hc
      rw [hred, if_neg hc]
      exact ⟨fun h => absurd h (by decide), fun _ => rfl⟩

/-- C2 witness: Unity "2021.1" with mono-2.0-bdwgc.dll on a 64-bit player
detects as MonoV2_x64 on the concrete state `pW2`. -/
theorem C2_mono_version_detection_witness :
    detect_version pW2 = some MonoVersion.MonoV2_x64 :=
  ((C2_mono_version_detection pW2 (200, 60) 300 400 [50, 48, 50, 49, 46, 49]
      [50, 48, 50, 49] [49] [] MachineType.x86_64
      rfl rfl rfl rfl rfl rfl rfl rfl).2 (by decide)).2 rfl

/-- C7: with GameAssembly.dll present, if UnityPlayer.dll is absent or its
machine type is x86, `try_attach` returns `None`; the statement assumes
nothing about mono.dll or mono-2.0-bdwgc.dll, so the result is independent
of the Mono module checks. -/
theorem C7_il2cpp_x86_try_attach_none :
    ∀ (p : Proc) (g : Nat × Nat),
      p.getModuleRange "GameAssembly.dll" = some g →
      (p.getModuleRange "UnityPlayer.dll" = none ∨
        ∃ u, p.getModuleRange "UnityPlayer.dll" = some u ∧
          p.machineType u.1 = some MachineType.x86) →
      UnityManager.try_attach p = none := by
  intro p g hga hcase
  have hdv : detect_version p = none := by
    rcases hcase with hnone | ⟨u, hu, hx⟩
    · simp only [detect_version, hga, hnone]
    · simp only [detect_version, hga, hu, hx]
  simp [UnityManager.try_attach, hdv]

/-- C7 witness: the rejection evaluated on a concrete 32-bit IL2CPP state. -/
theorem C7_il2cpp_x86_try_attach_none_witness :
    UnityManager.try_attach pW7 = none :=
  C7_il2cpp_x86_try_attach_none pW7 (100, 50) rfl (Or.inr ⟨(200, 60), rfl, rfl⟩)

/-- C5 counterexample: in the Mono v2 x64 walker, for the empty query,
`get_field` returns the offset 7 of a field whose name window cannot be read
(the failed read is replaced by `[0; 128]`), so no entry of the field array
is name-matched in the claim's sense. -/
theorem C5_counterexample :
    MonoV2x64.get_field pC5 cC5 [] = some 7 ∧
    pC5.readBytes 128 fC5.name = none ∧
    ∀ j, j < cC5.field_count → strictFieldHit pC5 cC5 [] 7 j = false :=
  ⟨rfl, rfl, by decide⟩

/-- C5 amended: a returned offset comes from the first field entry matched
by the walker's own name predicate — for IL2CPP 2020 a successfully read,
NUL-truncated name equal to the query (the claim as stated); for Mono v2
x64 the same except that a failed name read is replaced by an all-zero
buffer, so it matches exactly the empty query. -/
theorem C5_get_field_first_match_amended :
    (∀ (p : Proc) (c : Il2cpp2020.MonoClass) (n : List Nat) (o : Nat),
      Il2cpp2020.get_field p c n = some o →
        ∃ j, j < c.field_count ∧ ∃ f,
          p.readClassField2020 (Il2cpp2020.fieldAddr c j) = some f ∧
          Il2cpp2020.fieldMatch p f n = true ∧ u64ofI f.offset = o ∧
          ∀ l, l < j → ∀ g,
            p.readClassField2020 (Il2cpp2020.fieldAddr c l) = some g →
            Il2cpp2020.fieldMatch p g n = false) ∧
    (∀ (p : Proc) (c : MonoV2x64.MonoClassDef) (n : List Nat) (o : Nat),
      MonoV2x64.get_field p c n = some o →
        ∃ j, j < c.field_count ∧ ∃ f,
          p.readClassFieldV2x64 (MonoV2x64.fieldAddr c j) = some f ∧
          MonoV2x64.fieldMatch p f n = true ∧ u64ofI f.offset = o ∧
          ∀ l, l < j → ∀ g,
            p.readClassFieldV2x64 (MonoV2x64.fieldAddr c l) = some g →
            MonoV2x64.fieldMatch p g n = false) := by
  constructor
  · intro p c n o h
    unfold Il2cpp2020.get_field at h
    rw [Option.map_eq_some'] at h
    obtain ⟨f, hsf, hoff⟩ := h
    obtain ⟨hok, j, hj, hread, hfirst⟩ := searchFrom_eq_some _ _ _ _ _ hsf
    refine ⟨j, hj, f, by simpa using hread, hok, hoff, ?_⟩
    intro l hl g hg
    exact hfirst l hl g (by simpa using hg)
  · intro p c n o h
    unfold MonoV2x64.get_field at h
    rw [Option.map_eq_some'] at h
    obtain ⟨f, hsf, hoff⟩ := h
    obtain ⟨hok, j, hj, hread, hfirst⟩ := searchFrom_eq_some _ _ _ _ _ hsf
    refine ⟨j, hj, f, by simpa using hread, hok, hoff, ?_⟩
    intro l hl g hg
    exact hfirst l hl g (by simpa using hg)

/-- C5 amended witness: the first-match property instantiated on concrete
"hp" lookups through both walkers. -/
theorem C5_get_field_first_match_amended_witness :
    (∃ j, j < cW5.field_count ∧ ∃ f,
      pW5.readClassField2020 (Il2cpp2020.fieldAddr cW5 j) = some f ∧
      Il2cpp2020.fieldMatch pW5 f bytesHp = true ∧ u64ofI f.offset = 40 ∧
      ∀ l, l < j → ∀ g,
        pW5.readClassField2020 (Il2cpp2020.fieldAddr cW5 l) = some g →
        Il2cpp2020.fieldMatch pW5 g bytesHp = false) ∧
    (∃ j, j < cW5m.field_count ∧ ∃ f,
      pW5.readClassFieldV2x64 (MonoV2x64.fieldAddr cW5m j) = some f ∧
      MonoV2x64.fieldMatch pW5 f bytesHp = true ∧ u64ofI f.offset = 41 ∧
      ∀ l, l < j → ∀ g,
        pW5.readClassFieldV2x64 (MonoV2x64.fieldAddr cW5m l) = some g →
        MonoV2x64.fieldMatch pW5 g bytesHp = false) :=
  ⟨C5_get_field_first_match_amended.1 pW5 cW5 bytesHp 40 rfl,
   C5_get_field_first_match_amended.2 pW5 cW5m bytesHp 41 rfl⟩

/-- C6: `get_static_table` of the Mono v2 walkers returns exactly the
non-null pointer stored at `domain_vtables + (sizeof(MonoVTable) −
sizeof(ptr)) + vtable_size · sizeof(ptr)` (x64: 72 − 8 and stride 8; x86:
44 − 4 and stride 4), with `domain_vtables` read from the class's
`runtime_info`; it is `None` when the runtime-info read fails (and, by the
equivalences, when the final read fails or yields null). -/
theorem C6_get_static_table_address :
    (∀ (p : Proc) (c : MonoV2x64.MonoClassDef) (rti : MonoV2x64.MonoClassRuntimeInfo),
      p.readRuntimeInfoV2x64 c.klass.runtime_info = some rti →
      0 ≤ c.klass.vtable_size →
      rti.domain_vtables + 64 + c.klass.vtable_size.toNat * 8 < 2 ^ 64 →
      ∀ a, (MonoV2x64.get_static_table p c = some a ↔
        (p.readPtr64 (rti.domain_vtables + (MonoV2x64.MonoVTable.sizeOf - 8)
            + c.klass.vtable_size.toNat * 8) = some a ∧ a ≠ 0))) ∧
    (∀ (p : Proc) (c : MonoV2x64.MonoClassDef),
      p.readRuntimeInfoV2x64 c.klass.runtime_info = none →
      MonoV2x64.get_static_table p c = none) ∧
    (∀ (p : Proc) (c : MonoV2x86.MonoClassDef), ∀ rti : MonoV2x86.MonoClassRuntimeInfo,
      p.readRuntimeInfoV2x86 c.klass.runtime_info = some rti →
      0 ≤ c.klass.vtable_size →
      rti.domain_vtables + 40 + c.klass.vtable_size.toNat * 4 < 2 ^ 32 →
      ∀ a, (MonoV2x86.get_static_table p c = some a ↔
        (p.readPtr32 (rti.domain_vtables + (MonoV2x86.MonoVTable.sizeOf - 4)
            + c.klass.vtable_size.toNat * 4) = some a ∧ a ≠ 0))) ∧
    (∀ (p : Proc) (c : MonoV2x86.MonoClassDef),
      p.readRuntimeInfoV2x86 c.klass.runtime_info = none →
      MonoV2x86.get_static_table p c = none) := by
  have h64 : (2 : ℕ) ^ 64 = 18446744073709551616 := by norm_num
  have h32 : (2 : ℕ) ^ 32 = 4294967296 := by norm_num
  refine ⟨?_, ?_, ?_, ?_⟩
  · intro p c rti hrti hv hb a
    rw [h64] at hb
    have hvlt : c.klass.vtable_size.emod (2 ^ 64) = c.klass.vtable_size := by
      refine Int.emod_eq_of_lt hv ?_
      have ht := Int.toNat_of_nonneg hv
      have h64i : (2 : ℤ) ^ 64 = 18446744073709551616 := by norm_num
      omega
    have hu : u64ofI c.klass.vtable_size = c.klass.vtable_size.toNat := by
      unfold u64ofI
      rw [hvlt]
    have haddr : ((rti.domain_vtables + (MonoV2x64.MonoVTable.sizeOf - 8)) % 2 ^ 64
        + u64ofI c.klass.vtable_size * 8 % 2 ^ 64) % 2 ^ 64
        = rti.domain_vtables + (MonoV2x64.MonoVTable.sizeOf - 8)
            + c.klass.vtable_size.toNat * 8 := by
      rw [hu]
      simp only [MonoV2x64.MonoVTable.sizeOf, h64]
      rw [Nat.mod_eq_of_lt (by omega), Nat.mod_eq_of_lt (by omega),
        Nat.mod_eq_of_lt (by omega)]
    simp only [MonoV2x64.get_static_table, hrti, haddr]
    cases hp : p.readPtr64 (rti.domain_vtables + (MonoV2x64.MonoVTable.sizeOf - 8)
        + c.klass.vtable_size.toNat * 8) with
    | none => simp
    | some w =>
      by_cases hw : w = 0
      · subst hw
        simp
        exact fun h => h.symm
      · simp only [hw, if_neg, ite_false]
        constructor
        · intro hh
          cases hh
          exact ⟨rfl, hw⟩
        · intro hh
          exact hh.1
  · intro p c h
    simp [MonoV2x64.get_static_table, h]
  · intro p c rti hrti hv hb a
    rw [h32] at hb
    have hvlt : c.klass.vtable_size.emod (2 ^ 64) = c.klass.vtable_size := by
      refine Int.emod_eq_of_lt hv ?_
      have ht := Int.toNat_of_nonneg hv
      have h64i : (2 : ℤ) ^ 64 = 18446744073709551616 := by norm_num
      omega
    have hu : u64ofI c.klass.vtable_size = c.klass.vtable_size.toNat := by
      unfold u64ofI
      rw [hvlt]
    have haddr : ((rti.domain_vtables + (MonoV2x86.MonoVTable.sizeOf - 4)) % 2 ^ 32
        + u64ofI c.klass.vtable_size * 4 % 2 ^ 64) % 2 ^ 64
        = rti.domain_vtables + (MonoV2x86.MonoVTable.sizeOf - 4)
            + c.klass.vtable_size.toNat * 4 := by
      rw [hu]
      simp only [MonoV2x86.MonoVTable.sizeOf, h32, h64]
      rw [Nat.mod_eq_of_lt (by omega), Nat.mod_eq_of_lt (by omega),
        Nat.mod_eq_of_lt (by omega)]
    simp only [MonoV2x86.get_static_table, hrti, haddr]
    cases hp : p.readPtr32 (rti.domain_vtables + (MonoV2x86.MonoVTable.sizeOf - 4)
        + c.klass.vtable_size.toNat * 4) with
    | none => simp
    | some w =>
      by_cases hw : w = 0
      · subst hw
        simp
        exact fun h => h.symm
      · simp only [hw, if_neg, ite_false]
        constructor
        · intro hh
          cases hh
          exact ⟨rfl, hw⟩
        · intro hh
          exact hh.1
  · intro p c h
    simp [MonoV2x86.get_static_table, h]

/-- C6 witness: the x64 static slot at 10000 + 64 + 24 holds 777 and the
x86 one at 11000 + 40 + 12 holds 888, both returned. -/
theorem C6_get_static_table_address_witness :
    MonoV2x64.get_static_table pW6 cW6 = some 777 ∧
    MonoV2x86.get_static_table pW6 cW6b = some 888 :=
  ⟨(C6_get_static_table_address.1 pW6 cW6 rtiW6 rfl (by decide) (by decide)
      777).mpr ⟨rfl, by decide⟩,
   (C6_get_static_table_address.2.2.1 pW6 cW6b rtiW6b rfl (by decide) (by decide)
      888).mpr ⟨rfl, by decide⟩⟩

/-- C8 counterexample: in the Mono v2 x64 walker a failed field-name read
does not short-circuit the lookup to `None`: the field entry at 8100 is
readable, its name window at 9100 is not, and `get_field` with the empty
query still returns the entry's offset 5. -/
theorem C8_counterexample :
    pC8.readClassFieldV2x64 8100 = some fC8 ∧
    pC8.readBytes 128 fC8.name = none ∧
    MonoV2x64.get_field pC8 cC8 [] = some 5 :=
  ⟨rfl, rfl, rfl⟩

/-- C8 amended: failed reads never panic (every probe is a total function
into `Option`), but inside the Mono v2 enumerations they are recovered
locally instead of short-circuiting: a failed class-cache bucket read acts
as an empty bucket and the scan continues with the next bucket, and a
failed field-name read is replaced by an all-zero buffer, so the field
matches exactly the empty query. -/
theorem C8_local_recovery_amended :
    (∀ (p : Proc) (img : MonoV2x64.MonoImage) (n : List Nat) (fuel k i : Nat),
      p.readPtr64 ((img.class_cache.table + i * 8 % 2 ^ 64) % 2 ^ 64) = none →
      bucketSearch (fun b => MonoV2x64.chainFind p n fuel (MonoV2x64.bucketAt p img b))
          (k + 1) i
        = bucketSearch
            (fun b => MonoV2x64.chainFind p n fuel (MonoV2x64.bucketAt p img b))
            k (i + 1)) ∧
    (∀ (p : Proc) (f : MonoV2x64.MonoClassField) (n : List Nat),
      p.readBytes 128 f.name = none →
      (MonoV2x64.fieldMatch p f n = true ↔ n = [])) := by
  constructor
  · intro p img n fuel k i h
    have hb : MonoV2x64.bucketAt p img i = 0 := by
      unfold MonoV2x64.bucketAt
      rw [h]
      rfl
    have hcf : MonoV2x64.chainFind p n fuel (MonoV2x64.bucketAt p img i) = none := by
      rw [hb]
      unfold MonoV2x64.chainFind
      exact chainSearch_zero _ _ _ fuel
    rw [bucketSearch]
    simp only [hcf]
  · intro p f n h
    unfold MonoV2x64.fieldMatch
    rw [h]
    have hz : truncAtNul ((none : Option (List Nat)).getD (List.replicate 128 0))
        = [] := by decide
    rw [hz]
    cases n with
    | nil => simp
    | cons b bs => simp

/-- C8 amended witness: the bucket-skip equation on an all-failing process
and the zero-buffer name match on an unreadable name. -/
theorem C8_local_recovery_amended_witness :
    (bucketSearch
        (fun b => MonoV2x64.chainFind emptyProc [] 3 (MonoV2x64.bucketAt emptyProc imgW8 b))
        1 0
      = bucketSearch
          (fun b => MonoV2x64.chainFind emptyProc [] 3 (MonoV2x64.bucketAt emptyProc imgW8 b))
          0 1) ∧
    MonoV2x64.fieldMatch emptyProc fW8 [] = true :=
  ⟨C8_local_recovery_amended.1 emptyProc imgW8 [] 3 0 0 rfl,
   (C8_local_recovery_amended.2 emptyProc fW8 [] rfl).mpr rfl⟩

theorem exportScan_finds (p : Proc) (base fnai faai : Nat) :
    ∀ j m val fa, j < m →
      (∀ k, k < j → ∃ ni nm, p.readU32 (base + fnai + (val + k) * 4) = some ni ∧
        p.readBytes 21 (base + ni) = some nm ∧ nm ≠ monoAssemblyForeachBytes) →
      (∃ ni, p.readU32 (base + fnai + (val + j) * 4) = some ni ∧
        p.readBytes 21 (base + ni) = some monoAssemblyForeachBytes) →
      p.readU32 (base + faai + (val + j) * 4) = some fa →
      exportScan p base fnai faai m val = some (base + fa) := by
  intro j
  induction j with
  | zero =>
    intro m val fa hm hpre hmatch hfa
    obtain ⟨ni, hni, hnm⟩ := hmatch
    cases m with
    | zero => omega
    | succ m' =>
      simp only [Nat.add_zero] at hni hfa
      rw [exportScan]
      simp [hni, hnm, hfa]
  | succ j' ih =>
    intro m val fa hm hpre hmatch hfa
    cases m with
    | zero => omega
    | succ m' =>
      obtain ⟨ni0, nm0, hni0, hnm0, hne⟩ := hpre 0 (by omega)
      simp only [Nat.add_zero] at hni0
      rw [exportScan]
      simp only [hni0, hnm0, if_neg hne]
      have hpre' : ∀ k, k < j' →
          ∃ ni nm, p.readU32 (base + fnai + (val + 1 + k) * 4) = some ni ∧
            p.readBytes 21 (base + ni) = some nm ∧
            nm ≠ monoAssemblyForeachBytes := by
        intro k hk
        have hh := hpre (k + 1) (by omega)
        rwa [show val + (k + 1) = val + 1 + k from by omega] at hh
      have hmatch' : ∃ ni, p.readU32 (base + fnai + (val + 1 + j') * 4) = some ni ∧
          p.readBytes 21 (base + ni) = some monoAssemblyForeachBytes := by
        rwa [show val + (j' + 1) = val + 1 + j' from by omega] at hmatch
      have hfa' : p.readU32 (base + faai + (val + 1 + j') * 4) = some fa := by
        rwa [show val + (j' + 1) = val + 1 + j' from by omega] at hfa
      exact ih m' (val + 1) fa (by omega) hpre' hmatch' hfa'

/-- C10: the Mono v2 export lookup (shared by the x86 and x64 attach paths)
compares exactly the 21-byte window of each exported name against
"mono_assembly_foreach" — no NUL terminator at byte 21 is required, so any
export whose first 21 bytes equal the target matches — and the first such
slot in name-table order determines the returned function address
`base + u32 @ base + address_array + 4·slot`. -/
theorem C10_export_scan_prefix_match :
    ∀ (p : Proc) (base fnai faai n j fa : Nat), j < n →
      (∀ k, k < j → ∃ ni nm, p.readU32 (base + fnai + k * 4) = some ni ∧
        p.readBytes 21 (base + ni) = some nm ∧ nm ≠ monoAssemblyForeachBytes) →
      (∃ ni, p.readU32 (base + fnai + j * 4) = some ni ∧
        p.readBytes 21 (base + ni) = some monoAssemblyForeachBytes) →
      p.readU32 (base + faai + j * 4) = some fa →
      exportScan p base fnai faai n 0 = some (base + fa) := by
  intro p base fnai faai n j fa hj hpre hmatch hfa
  refine exportScan_finds p base fnai faai j n 0 fa hj ?_ ?_ ?_
  · intro k hk
    simpa using hpre k hk
  · simpa using hmatch
  · simpa using hfa

/-- C10 witness: slot 0 names a non-match, slot 1's 22-byte export name
"mono_assembly_foreach2" matches on its first 21 bytes (byte 21 is '2', not
NUL), and the returned address is base 10 + RVA 1280. -/
theorem C10_export_scan_prefix_match_witness :
    exportScan pW10 10 1000 2000 2 0 = some 1290 ∧
    pW10.readBytes 22 3310 = some (monoAssemblyForeachBytes ++ [50]) := by
  constructor
  · have h := C10_export_scan_prefix_match pW10 10 1000 2000 2 1 1280 (by omega)
      (fun k hk => by
        have hk0 : k = 0 := by omega
        subst hk0
        exact ⟨3000, List.replicate 21 65, rfl, rfl, by decide⟩)
      ⟨3300, rfl, rfl⟩ rfl
    simpa using h
  · rfl
